import Mathlib

/-!
Verification development for the moviebox-api client library.

The definitions below are shallow embeddings of the Python source:
dictionaries become association lists, exceptions become explicit error
values in `Except` / dedicated result types, and the regular expressions
of `helpers.py` are embedded as executable character-list functions with
Python `re` semantics (anchored `match`, greedy quantifiers, `$` also
matching before a final newline, `.` excluding newlines).  Character
classes are modelled at their ASCII core.
-/

/-! ### JSON values and envelope unwrapping (`helpers.process_api_response`) -/

/-- A JSON-like value as produced by parsing a server response body. -/
inductive JsonValue where
  | null
  | int (n : Int)
  | str (s : String)
  | arr (xs : List JsonValue)
  | obj (fields : List (String × JsonValue))

/-- Python `dict` lookup on an association list (dict keys are unique). -/
def jsonGet (fields : List (String × JsonValue)) (key : String) : Option JsonValue :=
  match fields with
  | [] => none
  | (k, v) :: rest => if k = key then some v else jsonGet rest key

/-- Python `dict.get(key, default)`. -/
def pyGet (fields : List (String × JsonValue)) (key : String) (default : JsonValue) : JsonValue :=
  match jsonGet fields key with
  | some v => v
  | none => default

/-- Python `value == n` for an integer literal `n`. -/
def jsonIsInt (v : JsonValue) (n : Int) : Bool :=
  match v with
  | .int m => m == n
  | _ => false

/-- Python `value == s` for a string literal `s`. -/
def jsonIsStr (v : JsonValue) (s : String) : Bool :=
  match v with
  | .str t => t == s
  | _ => false

/-- Outcome of `process_api_response`: normal return, the raised
`UnsuccessfulResponseError` (carrying the whole envelope, as the
constructor stores it on `.response`), or the `KeyError` Python raises
when indexing a missing key. -/
inductive ApiResponseResult where
  | ok (dta : JsonValue)
  | unsuccessfulResponse (response : List (String × JsonValue))
  | keyError (key : String)

/-- `helpers.process_api_response`: returns `json["data"]` when
`json.get("code", 1) == 0 and json.get("message") == "ok"`, otherwise
raises `UnsuccessfulResponseError(json, ...)`. -/
def process_api_response (json : List (String × JsonValue)) : ApiResponseResult :=
  if jsonIsInt (pyGet json "code" (.int 1)) 0 && jsonIsStr (pyGet json "message" .null) "ok" then
    match jsonGet json "data" with
    | some d => .ok d
    | none => .keyError "data"
  else
    .unsuccessfulResponse json

/-! ### Media and caption file metadata (`models.py`) -/

/-- `models.MediaFileMetadata` (urls kept as strings). -/
structure MediaFileMetadata where
  id : String
  url : String
  resolution : Int
  size : Int
deriving DecidableEq, Repr

/-- `models.CaptionFileMetadata`. -/
structure CaptionFileMetadata where
  id : String
  lan : String
  lanName : String
  url : String
  size : Int
  delay : Int
deriving DecidableEq, Repr

/-- `models.DownloadableFilesMetadata`. -/
structure DownloadableFilesMetadata where
  downloads : List MediaFileMetadata
  captions : List CaptionFileMetadata
  limited : Bool
  limitedCode : String
  hasResource : Bool
deriving DecidableEq, Repr

/-- Error raised by `DownloadableFilesMetadata._check_downloads`. -/
inductive MediaFileError where
  | zeroMediaFileError (msg : String)
deriving DecidableEq, Repr

/-- Loop body of the `best_media_file` linear scan. -/
def bestStep (found media_file : MediaFileMetadata) : MediaFileMetadata :=
  if media_file.resolution > found.resolution then media_file else found

/-- Loop body of the `worst_media_file` linear scan. -/
def worstStep (found media_file : MediaFileMetadata) : MediaFileMetadata :=
  if media_file.resolution < found.resolution then media_file else found

/-- `DownloadableFilesMetadata.best_media_file`: `_check_downloads` raises
`ZeroMediaFileError` on an empty list, else a linear scan for the maximal
`resolution` starting from `downloads[0]`. -/
def DownloadableFilesMetadata.best_media_file (m : DownloadableFilesMetadata) :
    Except MediaFileError MediaFileMetadata :=
  match m.downloads with
  | [] => .error (.zeroMediaFileError "There are no downloadable  mediafiles for the targeted item")
  | first :: rest => .ok (rest.foldl bestStep first)

/-- `DownloadableFilesMetadata.worst_media_file`. -/
def DownloadableFilesMetadata.worst_media_file (m : DownloadableFilesMetadata) :
    Except MediaFileError MediaFileMetadata :=
  match m.downloads with
  | [] => .error (.zeroMediaFileError "There are no downloadable  mediafiles for the targeted item")
  | first :: rest => .ok (rest.foldl worstStep first)

/-- Python dict built by repeated assignment (later keys overwrite) followed
by `.get(key)`: the value of the last pair whose key matches, if any. -/
def dictGet {α : Type} (kvs : List (String × α)) (key : String) : Option α :=
  match kvs with
  | [] => none
  | kv :: rest =>
    match dictGet rest key with
    | some v => some v
    | none => if kv.1 = key then some kv.2 else none

/-- `DownloadableFilesMetadata.get_quality_downloads_map`: maps
`f"{item.resolution}P"` to each download item. -/
def DownloadableFilesMetadata.get_quality_downloads_map (m : DownloadableFilesMetadata) :
    List (String × MediaFileMetadata) :=
  m.downloads.map (fun item => (toString item.resolution ++ "P", item))

/-- `constants.DOWNLOAD_QUALITIES`. -/
def DOWNLOAD_QUALITIES : List String := ["WORST", "BEST", "360P", "480P", "720P", "1080P"]

/-- Outcome of `download.resolve_media_file_to_be_downloaded`.
`attributeError` models the `AttributeError` Python raises while building
the `RuntimeError` message: the code interpolates `target_metadata.keys()`
although `target_metadata` is `None` at that point. -/
inductive ResolveError where
  | zeroMediaFileError (msg : String)
  | attributeError (msg : String)
  | valueError (msg : String)
deriving DecidableEq, Repr

/-- `download.resolve_media_file_to_be_downloaded`. -/
def resolve_media_file_to_be_downloaded (quality : String)
    (downloadable_metadata : DownloadableFilesMetadata) :
    Except ResolveError MediaFileMetadata :=
  match quality with
  | "BEST" =>
    match downloadable_metadata.best_media_file with
    | .ok t => .ok t
    | .error (.zeroMediaFileError m) => .error (.zeroMediaFileError m)
  | "WORST" =>
    match downloadable_metadata.worst_media_file with
    | .ok t => .ok t
    | .error (.zeroMediaFileError m) => .error (.zeroMediaFileError m)
  | _ =>
    if quality ∈ DOWNLOAD_QUALITIES then
      match dictGet downloadable_metadata.get_quality_downloads_map quality with
      | some t => .ok t
      | none =>
        -- the source here executes
        -- `raise RuntimeError(f"... {target_metadata.keys()}")`
        -- with `target_metadata = None`, so Python raises
        -- `AttributeError` before any RuntimeError is constructed
        .error (.attributeError "NoneType object has no attribute keys")
    else
      .error (.valueError ("Unknown media file quality passed " ++ quality))

/-! ### Pagers and paged queries (`core.py`) -/

/-- `models.SearchResultsPagerModel`. -/
structure SearchResultsPagerModel where
  hasMore : Bool
  nextPage : Int
  page : Int
  perPage : Int
  totalCount : Int
deriving DecidableEq, Repr

/-- The fields of a search/trending result item that the embedded
operations consult (`subjectType` as its integer enum value). -/
structure SearchResultsItemModel where
  subjectType : Int
  title : String
  releaseYear : Int
deriving DecidableEq, Repr

/-- `models.SearchResultsModel` (pager plus items). -/
structure SearchResultsModel where
  pager : SearchResultsPagerModel
  items : List SearchResultsItemModel
deriving DecidableEq, Repr

/-- `models.TrendingResultsModel` (pager plus subjectList). -/
structure TrendingResultsModel where
  pager : SearchResultsPagerModel
  subjectList : List SearchResultsItemModel
deriving DecidableEq, Repr

/-- `constants.SubjectType` integer values. -/
def SubjectTypeALL : Int := 0

/-- `SubjectType.MOVIES`. -/
def SubjectTypeMOVIES : Int := 1

/-- `SubjectType.TV_SERIES`. -/
def SubjectTypeTVSERIES : Int := 2

/-- `SubjectType.MUSIC`. -/
def SubjectTypeMUSIC : Int := 6

/-- Errors raised by the page-navigation methods:
`ExhaustedSearchResultsError` stores the pager passed to it,
`MovieboxApiException` carries only a message. -/
inductive PageNavError where
  | exhaustedSearchResultsError (last_pager : SearchResultsPagerModel)
  | movieboxApiException (msg : String)
deriving DecidableEq, Repr

/-- `core.Search` construction state (`σ` is the opaque session type). -/
structure Search (σ : Type) where
  session : σ
  query : String
  subject_type : Int
  page : Int
  per_page : Int

/-- `core.Trending` construction state. -/
structure Trending (σ : Type) where
  session : σ
  page : Int
  per_page : Int

/-- `core.Recommend` construction state (`ι` is the reference item type). -/
structure Recommend (σ ι : Type) where
  session : σ
  item : ι
  page : Int
  per_page : Int

/-- `core.Search.next_page`: a fresh `Search` at `pager.nextPage` when
`hasMore`, else `ExhaustedSearchResultsError(content.pager, ...)`. -/
def Search.next_page {σ : Type} (self : Search σ) (content : SearchResultsModel) :
    Except PageNavError (Search σ) :=
  if content.pager.hasMore then
    .ok { session := self.session, query := self.query, subject_type := self.subject_type,
          page := content.pager.nextPage, per_page := self.per_page }
  else
    .error (.exhaustedSearchResultsError content.pager)

/-- `core.Search.previous_page`: guarded by `content.pager.page >= 2`. -/
def Search.previous_page {σ : Type} (self : Search σ) (content : SearchResultsModel) :
    Except PageNavError (Search σ) :=
  if content.pager.page ≥ 2 then
    .ok { session := self.session, query := self.query, subject_type := self.subject_type,
          page := content.pager.page - 1, per_page := self.per_page }
  else
    .error (.movieboxApiException "Unable to navigate to previous page.")

/-- `core.Trending.next_page`. -/
def Trending.next_page {σ : Type} (self : Trending σ) (content : TrendingResultsModel) :
    Except PageNavError (Trending σ) :=
  if content.pager.hasMore then
    .ok { session := self.session, page := content.pager.nextPage, per_page := self.per_page }
  else
    .error (.exhaustedSearchResultsError content.pager)

/-- `core.Trending.previous_page`: guarded by `content.pager.page >= 1`
(trending pages start from 0). -/
def Trending.previous_page {σ : Type} (self : Trending σ) (content : TrendingResultsModel) :
    Except PageNavError (Trending σ) :=
  if content.pager.page ≥ 1 then
    .ok { session := self.session, page := content.pager.page - 1, per_page := self.per_page }
  else
    .error (.movieboxApiException "Unable to navigate to previous page.")

/-- `core.Recommend.next_page`. -/
def Recommend.next_page {σ ι : Type} (self : Recommend σ ι) (content : SearchResultsModel) :
    Except PageNavError (Recommend σ ι) :=
  if content.pager.hasMore then
    .ok { session := self.session, item := self.item,
          page := content.pager.nextPage, per_page := self.per_page }
  else
    .error (.exhaustedSearchResultsError content.pager)

/-- `core.Recommend.previous_page`: guarded by `content.pager.page >= 2`. -/
def Recommend.previous_page {σ ι : Type} (self : Recommend σ ι) (content : SearchResultsModel) :
    Except PageNavError (Recommend σ ι) :=
  if content.pager.page ≥ 2 then
    .ok { session := self.session, item := self.item,
          page := content.pager.page - 1, per_page := self.per_page }
  else
    .error (.movieboxApiException "Unable to navigate to previous page.")

/-! ### Character classes (ASCII core of Python `\w`, `\s`, `\d`) -/

/-- Python `\s` at its ASCII core: space, tab, newline, carriage return,
vertical tab, form feed. -/
def pyIsSpace (c : Char) : Bool :=
  c == ' ' || c == '\t' || c == '\n' || c == '\r' || c == Char.ofNat 11 || c == Char.ofNat 12

/-- Python `\w` at its ASCII core: letters, digits, underscore. -/
def isWordCharAscii (c : Char) : Bool :=
  c.isAlpha || c.isDigit || c == '_'

/-- No newline character in the list (the region a Python `.` quantifier
can cover). -/
def noNewline (cs : List Char) : Bool :=
  cs.all (fun c => c != '\n')

/-! ### `helpers.get_file_extension` and the derived `ext` property

`FILE_EXT_PATTERN = re.compile(r".+\.(\w+)\?.+")`, used via `re.match`
(anchored at the start).  The leading `.+` is greedy, so the engine
commits to the last viable dot before the first newline; after the dot,
`(\w+)` must be a nonempty word-character run whose very next character
is `?`, followed by at least one non-newline character. -/

/-- Continuation of the pattern after a candidate `\.`: `(\w+)\?.+`.
Since word characters can never match `?`, the group is forced to be the
maximal word run, the next character must be `?`, and `.+` needs one
further non-newline character. -/
def extAfterDot (rest : List Char) : Option (List Char) :=
  let w := rest.takeWhile isWordCharAscii
  match rest.dropWhile isWordCharAscii with
  | '?' :: c :: _ => if w.isEmpty then none else if c == '\n' then none else some w
  | _ => none

/-- Scans the characters at index ≥ 1 (the leading `.+` guarantees one
character before the dot), preferring later dots (greedy `.+`) and never
crossing a newline. -/
def fileExtGo : List Char → Option (List Char)
  | [] => none
  | c :: rest =>
    if c == '\n' then none
    else
      match fileExtGo rest with
      | some w => some w
      | none => if c == '.' then extAfterDot rest else none

/-- `helpers.get_file_extension`: the first capture group of
`FILE_EXT_PATTERN.match(url)`, or `None` when there is no match. -/
def get_file_extension (url : String) : Option String :=
  match url.data with
  | [] => none
  | c0 :: rest => if c0 == '\n' then none else (fileExtGo rest).map (fun w => String.mk w)

/-- `models.BaseFileMetadata.ext` for media files. -/
def MediaFileMetadata.ext (m : MediaFileMetadata) : Option String :=
  get_file_extension m.url

/-- `models.BaseFileMetadata.ext` for caption files. -/
def CaptionFileMetadata.ext (c : CaptionFileMetadata) : Option String :=
  get_file_extension c.url

/-! ### Season-suffix regexes and search-item filtering (`helpers.py`, `core.py`)

`SERIES_NAME_WITH_SEASON_NUMBER_PATTERN = re.compile(r"^.*\sS\d{1,}$")`,
`SERIES_NAME_WITH_SEASON_NUMBER_ONE_PATTERN = re.compile(r"^.*\sS1$")`,
both used via `.match`.  The matchers work on the reversed character
list; a Python `$` matches at the end of the string or just before a
final newline, and the `.*` region must not contain a newline. -/

/-- `^.*\sS\d{1,}$` viewed from the right end: a nonempty digit run, then
`S`, then one whitespace character, then a newline-free remainder. -/
def seasonSuffixRev (r : List Char) : Bool :=
  match r.dropWhile Char.isDigit with
  | 'S' :: w :: a => !(r.takeWhile Char.isDigit).isEmpty && pyIsSpace w && noNewline a
  | _ => false

/-- `^.*\sS1$` viewed from the right end: `1`, `S`, one whitespace
character, then a newline-free remainder. -/
def seasonOneRev (r : List Char) : Bool :=
  match r with
  | '1' :: 'S' :: w :: a => pyIsSpace w && noNewline a
  | _ => false

/-- Applies a reversed end matcher at both positions where a Python `$`
can hold: the true end, and before a final newline if there is one. -/
def pyDollarMatch (f : List Char → Bool) (s : String) : Bool :=
  match s.data.reverse with
  | '\n' :: r => f r || f ('\n' :: r)
  | r => f r

/-- `SERIES_NAME_WITH_SEASON_NUMBER_PATTERN.match(item_name)` as a Bool. -/
def matchesSeasonNumber (item_name : String) : Bool :=
  pyDollarMatch seasonSuffixRev item_name

/-- `SERIES_NAME_WITH_SEASON_NUMBER_ONE_PATTERN.match(item_name)` as a Bool. -/
def matchesSeasonNumberOne (item_name : String) : Bool :=
  pyDollarMatch seasonOneRev item_name

/-- `helpers.is_valid_search_item`. -/
def is_valid_search_item (item_name : String) : Bool :=
  if matchesSeasonNumber item_name then
    if matchesSeasonNumberOne item_name then true
    else false
  else true

/-! `UNWANTED_ITEM_NAME_PATTERN = re.compile(r"(\sS\d{1,}|\sS\d{1,}-S\d{1,}|-S\d{1,})")`,
used via `.sub("", item_name)`.  Python alternation is leftmost: the
first alternative is tried first at every position, so the second
alternative (whose matches always begin like a first-alternative match)
can never be selected.  The scan is left to right and non-overlapping,
and the greedy `\d{1,}` always takes the maximal digit run. -/

/-- One left-to-right pass of `UNWANTED_ITEM_NAME_PATTERN.sub("", ·)`:
at a whitespace or `-` followed by `S` and at least one digit, the whole
occurrence is dropped and scanning resumes after its digits; otherwise
the character is kept. -/
def sanitize_go : List Char → List Char
  | [] => []
  | c :: 'S' :: d :: r3 =>
    if (pyIsSpace c || c == '-') && d.isDigit then
      sanitize_go (r3.dropWhile Char.isDigit)
    else
      c :: sanitize_go ('S' :: d :: r3)
  | c :: rest => c :: sanitize_go rest
termination_by cs => cs.length
decreasing_by
  all_goals simp only [List.length_cons]
  all_goals
    first
      | omega
      | (have h := (List.dropWhile_sublist (p := Char.isDigit) (l := r3)).length_le; omega)

/-- `helpers.sanitize_item_name`. -/
def sanitize_item_name (item_name : String) : String :=
  String.mk (sanitize_go item_name.data)

/-- A raw (not yet modelled) search-result item as `Search.get_content`
reads it from the response dictionary: `item["subjectType"]` and
`item["title"]`. -/
structure RawSearchItem where
  subjectType : Int
  title : String
deriving DecidableEq, Repr

/-- `ZeroSearchResultsError`. -/
inductive SearchContentError where
  | zeroSearchResultsError (msg : String)
deriving DecidableEq, Repr

/-- Loop body of the filtering loop in `Search.get_content`: an item is
appended iff its `subjectType` matches the requested one and
`is_valid_search_item` accepts its title, in which case the title is
replaced with its sanitized form. -/
def searchKeepItem (subject_type : Int) (item : RawSearchItem) : Option RawSearchItem :=
  if item.subjectType == subject_type then
    if is_valid_search_item item.title then
      some { item with title := sanitize_item_name item.title }
    else none
  else none

/-- `core.Search.get_content`, restricted to its treatment of the raw
`items` list (the only part the filter changes): when the requested
subject type is not `ALL`, an empty raw list raises
`ZeroSearchResultsError` and a nonempty one is filtered; when it is
`ALL`, the list passes through untouched. -/
def Search.get_content_items {σ : Type} (self : Search σ) (contents_items : List RawSearchItem) :
    Except SearchContentError (List RawSearchItem) :=
  if self.subject_type ≠ SubjectTypeALL then
    if contents_items.isEmpty then
      .error (.zeroSearchResultsError "Search yielded empty results. Try a different keyword.")
    else
      .ok (contents_items.filterMap (searchKeepItem self.subject_type))
  else
    .ok contents_items

/-! ### Filename generation (`download.py`) -/

/-- The complement of `helpers.ILLEGAL_CHARACTERS_PATTERN = [^\w\-_\.\s()&|]`:
characters a sanitized filename may contain. -/
def is_legal_filename_char (c : Char) : Bool :=
  isWordCharAscii c || c == '-' || c == '_' || c == '.' || pyIsSpace c ||
    c == '(' || c == ')' || c == '&' || c == '|'

/-- Modelled from the spec: `sanitize_filename` lives in the external
download-runner helper package (throttlebuster), which is not part of
this repository; spec section 4.5 says output filenames are
filesystem-sanitized with illegal characters stripped, and the
illegal-character class is taken from this repository's own
`ILLEGAL_CHARACTERS_PATTERN`. -/
def sanitize_filename (s : String) : String :=
  String.mk (s.data.filter is_legal_filename_char)

/-- Python `str.format` rendering of the `ext` placeholder (`None` when
the URL yields no extension). -/
def formatExt (e : Option String) : String :=
  match e with
  | some x => x
  | none => "None"

/-- `BaseFileDownloaderAndHelper.create_final_dir`, with directories as
path-component lists: when grouping is on and both season and episode
are truthy, two components are appended; otherwise the working directory
is returned unchanged. -/
def create_final_dir (working_dir : List String) (item : SearchResultsItemModel)
    (season episode : Int) (group : Bool) : List String :=
  if group ∧ season ≠ 0 ∧ episode ≠ 0 then
    working_dir ++ [item.title ++ " (" ++ toString item.releaseYear ++ ")", "S" ++ toString season]
  else
    working_dir

/-- `MediaFileDownloader.generate_filename`: instantiates
`series_filename_template = "{title} S{season}E{episode}.{ext}"` for TV
series and `movie_filename_template = "{title} ({release_year}).{ext}"`
otherwise, and returns it together with the final directory.  The source
returns the instantiated template verbatim (no sanitization). -/
def MediaFileDownloader.generate_filename (working_dir : List String) (group_series : Bool)
    (search_results_item : SearchResultsItemModel) (media_file : MediaFileMetadata)
    (season episode : Int) : String × List String :=
  let filename :=
    if search_results_item.subjectType == SubjectTypeTVSERIES then
      search_results_item.title ++ " S" ++ toString season ++ "E" ++ toString episode ++
        "." ++ formatExt media_file.ext
    else
      search_results_item.title ++ " (" ++ toString search_results_item.releaseYear ++ ")." ++
        formatExt media_file.ext
  (filename, create_final_dir working_dir search_results_item season episode group_series)

/-- `CaptionFileDownloader.generate_filename`: same shapes with `.{lan}`
inserted before the extension, and the result passed through
`sanitize_filename`. -/
def CaptionFileDownloader.generate_filename (working_dir : List String) (group_series : Bool)
    (search_results_item : SearchResultsItemModel) (caption_file : CaptionFileMetadata)
    (season episode : Int) : String × List String :=
  let filename :=
    if search_results_item.subjectType == SubjectTypeTVSERIES then
      search_results_item.title ++ " S" ++ toString season ++ "E" ++ toString episode ++
        "." ++ caption_file.lan ++ "." ++ formatExt caption_file.ext
    else
      search_results_item.title ++ " (" ++ toString search_results_item.releaseYear ++ ")." ++
        caption_file.lan ++ "." ++ formatExt caption_file.ext
  (sanitize_filename filename, create_final_dir working_dir search_results_item season episode group_series)

/-! ### Subtitle lookup (`models.DownloadableFilesMetadata`) -/

/-- `get_language_subtitle_map`: `{caption.lanName: caption}`. -/
def DownloadableFilesMetadata.get_language_subtitle_map (m : DownloadableFilesMetadata) :
    List (String × CaptionFileMetadata) :=
  m.captions.map (fun caption => (caption.lanName, caption))

/-- `get_language_short_subtitle_map`: `{caption.lan: caption}`. -/
def DownloadableFilesMetadata.get_language_short_subtitle_map (m : DownloadableFilesMetadata) :
    List (String × CaptionFileMetadata) :=
  m.captions.map (fun caption => (caption.lan, caption))

/-- Python `str.capitalize()`: first character uppercased, the rest
lowercased. -/
def pyCapitalize (s : String) : String :=
  match s.data with
  | [] => ""
  | c :: rest => String.mk (c.toUpper :: rest.map Char.toLower)

/-- Python `str.lower()` (ASCII core). -/
def pyLower (s : String) : String :=
  String.mk (s.data.map Char.toLower)

/-- `DownloadableFilesMetadata.get_subtitle_by_language`: a 2-letter
input is lowercased and looked up among short codes, anything else is
capitalized and looked up among full language names. -/
def DownloadableFilesMetadata.get_subtitle_by_language (m : DownloadableFilesMetadata)
    (language : String) : Option CaptionFileMetadata :=
  if language.length = 2 then
    dictGet m.get_language_short_subtitle_map (pyLower language)
  else
    dictGet m.get_language_subtitle_map (pyCapitalize language)

/-! ## Theorems -/

/-! ### C1: envelope unwrapping -/

/-- `jsonIsInt v n` holds exactly on the integer value `n`. -/
theorem jsonIsInt_true_iff (v : JsonValue) (n : Int) : jsonIsInt v n = true ↔ v = JsonValue.int n := by
  cases v <;> simp [jsonIsInt]

/-- `jsonIsStr v s` holds exactly on the string value `s`. -/
theorem jsonIsStr_true_iff (v : JsonValue) (s : String) : jsonIsStr v s = true ↔ v = JsonValue.str s := by
  cases v <;> simp [jsonIsStr]

/-- The success test of `process_api_response` holds exactly when the
envelope carries `code = 0` and `message = "ok"` (a missing key falls to
the defaults `1` and `None`, which fail the test). -/
theorem envelope_success_iff (json : List (String × JsonValue)) :
    (jsonIsInt (pyGet json "code" (.int 1)) 0 && jsonIsStr (pyGet json "message" .null) "ok") = true ↔
      (jsonGet json "code" = some (JsonValue.int 0) ∧
        jsonGet json "message" = some (JsonValue.str "ok")) := by
  rw [Bool.and_eq_true, jsonIsInt_true_iff, jsonIsStr_true_iff]
  unfold pyGet
  cases hc : jsonGet json "code" <;> cases hm : jsonGet json "message" <;> simp

/-- C1: an envelope with `code == 0`, `message == "ok"` and a `data`
field unwraps to exactly the `data` field; every envelope failing the
`code`/`message` test (including envelopes missing either key) raises
`UnsuccessfulResponseError` carrying the full raw envelope. -/
theorem process_api_response_spec (json : List (String × JsonValue)) (d : JsonValue) :
    (jsonGet json "code" = some (JsonValue.int 0) →
      jsonGet json "message" = some (JsonValue.str "ok") →
      jsonGet json "data" = some d →
      process_api_response json = ApiResponseResult.ok d) ∧
    (¬ (jsonGet json "code" = some (JsonValue.int 0) ∧
        jsonGet json "message" = some (JsonValue.str "ok")) →
      process_api_response json = ApiResponseResult.unsuccessfulResponse json) := by
  constructor
  · intro hc hm hd
    have hcond := (envelope_success_iff json).mpr ⟨hc, hm⟩
    simp [process_api_response, hcond, hd]
  · intro hne
    have hcond : (jsonIsInt (pyGet json "code" (.int 1)) 0 &&
        jsonIsStr (pyGet json "message" .null) "ok") = false := by
      rw [Bool.eq_false_iff]
      intro h
      exact hne ((envelope_success_iff json).mp h)
    simp [process_api_response, hcond]

/-- Witness for C1 at the spec's own envelopes:
`{"code":0,"message":"ok","data":{"x":1}}` unwraps to `{"x":1}` and
`{"code":1,"message":"fail"}` raises, carrying the whole envelope. -/
theorem process_api_response_spec_witness :
    process_api_response
        [("code", JsonValue.int 0), ("message", JsonValue.str "ok"),
          ("data", JsonValue.obj [("x", JsonValue.int 1)])] =
      ApiResponseResult.ok (JsonValue.obj [("x", JsonValue.int 1)]) ∧
    process_api_response [("code", JsonValue.int 1), ("message", JsonValue.str "fail")] =
      ApiResponseResult.unsuccessfulResponse
        [("code", JsonValue.int 1), ("message", JsonValue.str "fail")] :=
  ⟨(process_api_response_spec _ _).1 rfl rfl rfl,
    (process_api_response_spec _ JsonValue.null).2 (by simp [jsonGet])⟩

/-! ### C2: exact-quality lookup crashes instead of listing qualities -/

/-- C2 (code bug): `resolve_media_file_to_be_downloaded("480P", ...)` on a
bundle that only offers 720P takes the numeric-quality branch (the
quality is in `DOWNLOAD_QUALITIES`, the map lookup misses), and then the
source crashes with `AttributeError` while interpolating
`target_metadata.keys()` into the message — `target_metadata` is `None` —
instead of raising the intended `RuntimeError` that enumerates the
bundle's available qualities. -/
theorem resolve_quality_miss_attribute_error :
    resolve_media_file_to_be_downloaded "480P"
        { downloads := [{ id := "a1", url := "https://host/v.mp4?auth=1", resolution := 720, size := 1000 }],
          captions := [], limited := false, limitedCode := "", hasResource := true } =
      Except.error (ResolveError.attributeError "NoneType object has no attribute keys") ∧
    "480P" ∈ DOWNLOAD_QUALITIES ∧
    dictGet
        (DownloadableFilesMetadata.get_quality_downloads_map
          { downloads := [{ id := "a1", url := "https://host/v.mp4?auth=1", resolution := 720, size := 1000 }],
            captions := [], limited := false, limitedCode := "", hasResource := true }) "480P" = none := by
  refine ⟨rfl, by decide, rfl⟩

/-! ### C4: next_page -/

/-- C4: for all three paged queries, `next_page` on a result whose pager
has `hasMore = false` fails with `ExhaustedSearchResultsError` carrying
that pager (the embedded operation is pure: no fetch is modelled because
none occurs), and on `hasMore = true` returns a fresh instance at
`pager.nextPage` whose other parameters (session, query, subject type,
reference item, page size) equal the receiver's; the receiver is a value
and is never mutated. -/
theorem next_page_spec {σ ι : Type} (s : Search σ) (t : Trending σ) (r : Recommend σ ι)
    (sc : SearchResultsModel) (tc : TrendingResultsModel) (rc : SearchResultsModel) :
    (sc.pager.hasMore = false →
      s.next_page sc = Except.error (PageNavError.exhaustedSearchResultsError sc.pager)) ∧
    (sc.pager.hasMore = true →
      s.next_page sc = Except.ok
        { session := s.session, query := s.query, subject_type := s.subject_type,
          page := sc.pager.nextPage, per_page := s.per_page }) ∧
    (tc.pager.hasMore = false →
      t.next_page tc = Except.error (PageNavError.exhaustedSearchResultsError tc.pager)) ∧
    (tc.pager.hasMore = true →
      t.next_page tc = Except.ok
        { session := t.session, page := tc.pager.nextPage, per_page := t.per_page }) ∧
    (rc.pager.hasMore = false →
      r.next_page rc = Except.error (PageNavError.exhaustedSearchResultsError rc.pager)) ∧
    (rc.pager.hasMore = true →
      r.next_page rc = Except.ok
        { session := r.session, item := r.item, page := rc.pager.nextPage,
          per_page := r.per_page }) := by
  refine ⟨?_, ?_, ?_, ?_, ?_, ?_⟩ <;> intro h <;>
    simp [Search.next_page, Trending.next_page, Recommend.next_page, h]

/-- Witness for C4: a concrete exhausted pager fails for all three query
kinds, and a concrete live pager advances a `Search` to page 5. -/
theorem next_page_spec_witness :
    Search.next_page (σ := Unit) ⟨(), "titanic", 1, 4, 24⟩ ⟨⟨false, 5, 4, 24, 96⟩, []⟩ =
      Except.error (PageNavError.exhaustedSearchResultsError ⟨false, 5, 4, 24, 96⟩) ∧
    Trending.next_page (σ := Unit) ⟨(), 4, 18⟩ ⟨⟨false, 5, 4, 18, 90⟩, []⟩ =
      Except.error (PageNavError.exhaustedSearchResultsError ⟨false, 5, 4, 18, 90⟩) ∧
    Recommend.next_page (σ := Unit) (ι := Unit) ⟨(), (), 4, 24⟩ ⟨⟨false, 5, 4, 24, 96⟩, []⟩ =
      Except.error (PageNavError.exhaustedSearchResultsError ⟨false, 5, 4, 24, 96⟩) ∧
    Search.next_page (σ := Unit) ⟨(), "titanic", 1, 4, 24⟩ ⟨⟨true, 5, 4, 24, 200⟩, []⟩ =
      Except.ok ⟨(), "titanic", 1, 5, 24⟩ :=
  ⟨(next_page_spec ⟨(), "titanic", 1, 4, 24⟩ ⟨(), 4, 18⟩ (⟨(), (), 4, 24⟩ : Recommend Unit Unit)
      ⟨⟨false, 5, 4, 24, 96⟩, []⟩ ⟨⟨false, 5, 4, 18, 90⟩, []⟩ ⟨⟨false, 5, 4, 24, 96⟩, []⟩).1 rfl,
    (next_page_spec ⟨(), "titanic", 1, 4, 24⟩ ⟨(), 4, 18⟩ (⟨(), (), 4, 24⟩ : Recommend Unit Unit)
      ⟨⟨false, 5, 4, 24, 96⟩, []⟩ ⟨⟨false, 5, 4, 18, 90⟩, []⟩ ⟨⟨false, 5, 4, 24, 96⟩, []⟩).2.2.1 rfl,
    (next_page_spec ⟨(), "titanic", 1, 4, 24⟩ ⟨(), 4, 18⟩ (⟨(), (), 4, 24⟩ : Recommend Unit Unit)
      ⟨⟨false, 5, 4, 24, 96⟩, []⟩ ⟨⟨false, 5, 4, 18, 90⟩, []⟩ ⟨⟨false, 5, 4, 24, 96⟩, []⟩).2.2.2.2.1 rfl,
    (next_page_spec ⟨(), "titanic", 1, 4, 24⟩ ⟨(), 4, 18⟩ (⟨(), (), 4, 24⟩ : Recommend Unit Unit)
      ⟨⟨true, 5, 4, 24, 200⟩, []⟩ ⟨⟨false, 5, 4, 18, 90⟩, []⟩ ⟨⟨false, 5, 4, 24, 96⟩, []⟩).2.1 rfl⟩

/-! ### C6: previous_page -/

/-- C6: `previous_page` returns a new instance at `pager.page - 1` with
the other parameters unchanged, and fails with the navigation error
(`MovieboxApiException`) exactly on the endpoint-specific first-page
guard: `page < 2` for Search and Recommend (pages start at 1), `page < 1`
for Trending (pages start at 0). -/
theorem previous_page_spec {σ ι : Type} (s : Search σ) (t : Trending σ) (r : Recommend σ ι)
    (sc : SearchResultsModel) (tc : TrendingResultsModel) (rc : SearchResultsModel) :
    (sc.pager.page < 2 →
      s.previous_page sc = Except.error (PageNavError.movieboxApiException
        "Unable to navigate to previous page.")) ∧
    (¬ sc.pager.page < 2 →
      s.previous_page sc = Except.ok
        { session := s.session, query := s.query, subject_type := s.subject_type,
          page := sc.pager.page - 1, per_page := s.per_page }) ∧
    (tc.pager.page < 1 →
      t.previous_page tc = Except.error (PageNavError.movieboxApiException
        "Unable to navigate to previous page.")) ∧
    (¬ tc.pager.page < 1 →
      t.previous_page tc = Except.ok
        { session := t.session, page := tc.pager.page - 1, per_page := t.per_page }) ∧
    (rc.pager.page < 2 →
      r.previous_page rc = Except.error (PageNavError.movieboxApiException
        "Unable to navigate to previous page.")) ∧
    (¬ rc.pager.page < 2 →
      r.previous_page rc = Except.ok
        { session := r.session, item := r.item, page := rc.pager.page - 1,
          per_page := r.per_page }) := by
  refine ⟨?_, ?_, ?_, ?_, ?_, ?_⟩ <;> intro h <;>
    simp [Search.previous_page, Trending.previous_page, Recommend.previous_page] <;> omega

/-- Witness for C6: page 1 is first for Search (guard `page < 2` fires)
while Trending still navigates from page 1 to page 0 and only fails at
page 0; Recommend mirrors Search. -/
theorem previous_page_spec_witness :
    Search.previous_page (σ := Unit) ⟨(), "titanic", 1, 1, 24⟩ ⟨⟨true, 2, 1, 24, 96⟩, []⟩ =
      Except.error (PageNavError.movieboxApiException "Unable to navigate to previous page.") ∧
    Trending.previous_page (σ := Unit) ⟨(), 1, 18⟩ ⟨⟨true, 2, 1, 18, 90⟩, []⟩ =
      Except.ok ⟨(), 0, 18⟩ ∧
    Trending.previous_page (σ := Unit) ⟨(), 0, 18⟩ ⟨⟨true, 1, 0, 18, 90⟩, []⟩ =
      Except.error (PageNavError.movieboxApiException "Unable to navigate to previous page.") ∧
    Recommend.previous_page (σ := Unit) (ι := Unit) ⟨(), (), 1, 24⟩ ⟨⟨true, 2, 1, 24, 96⟩, []⟩ =
      Except.error (PageNavError.movieboxApiException "Unable to navigate to previous page.") :=
  ⟨(previous_page_spec ⟨(), "titanic", 1, 1, 24⟩ ⟨(), 1, 18⟩ (⟨(), (), 1, 24⟩ : Recommend Unit Unit)
      ⟨⟨true, 2, 1, 24, 96⟩, []⟩ ⟨⟨true, 2, 1, 18, 90⟩, []⟩ ⟨⟨true, 2, 1, 24, 96⟩, []⟩).1 (by decide),
    (previous_page_spec ⟨(), "titanic", 1, 1, 24⟩ ⟨(), 1, 18⟩ (⟨(), (), 1, 24⟩ : Recommend Unit Unit)
      ⟨⟨true, 2, 1, 24, 96⟩, []⟩ ⟨⟨true, 2, 1, 18, 90⟩, []⟩ ⟨⟨true, 2, 1, 24, 96⟩, []⟩).2.2.2.1 (by decide),
    (previous_page_spec ⟨(), "titanic", 1, 1, 24⟩ ⟨(), 1, 18⟩ (⟨(), (), 1, 24⟩ : Recommend Unit Unit)
      ⟨⟨true, 2, 1, 24, 96⟩, []⟩ ⟨⟨true, 1, 0, 18, 90⟩, []⟩ ⟨⟨true, 2, 1, 24, 96⟩, []⟩).2.2.1 (by decide),
    (previous_page_spec ⟨(), "titanic", 1, 1, 24⟩ ⟨(), 1, 18⟩ (⟨(), (), 1, 24⟩ : Recommend Unit Unit)
      ⟨⟨true, 2, 1, 24, 96⟩, []⟩ ⟨⟨true, 2, 1, 18, 90⟩, []⟩ ⟨⟨true, 2, 1, 24, 96⟩, []⟩).2.2.2.2.1 (by decide)⟩

/-! ### C5: best and worst media file -/

/-- The `best_media_file` scan returns an element of the scanned list
whose resolution bounds every element from above. -/
theorem foldl_bestStep_spec (first : MediaFileMetadata) (rest : List MediaFileMetadata) :
    (rest.foldl bestStep first = first ∨ rest.foldl bestStep first ∈ rest) ∧
    first.resolution ≤ (rest.foldl bestStep first).resolution ∧
    ∀ x ∈ rest, x.resolution ≤ (rest.foldl bestStep first).resolution := by
  induction rest generalizing first with
  | nil => simp
  | cons a l ih =>
    simp only [List.foldl_cons]
    rcases ih (bestStep first a) with ⟨hmem, hle, hall⟩
    have hstep : bestStep first a = a ∨ bestStep first a = first := by
      unfold bestStep; split <;> simp
    have hfb : first.resolution ≤ (bestStep first a).resolution := by
      unfold bestStep; split <;> omega
    have hab : a.resolution ≤ (bestStep first a).resolution := by
      unfold bestStep; split <;> omega
    refine ⟨?_, le_trans hfb hle, ?_⟩
    · rcases hmem with h | h
      · rcases hstep with h2 | h2
        · right; rw [h, h2]; exact List.mem_cons_self a l
        · left; rw [h, h2]
      · right; exact List.mem_cons_of_mem a h
    · intro x hx
      rcases List.mem_cons.mp hx with h | h
      · subst h; exact le_trans hab hle
      · exact hall x h

/-- The `worst_media_file` scan returns an element of the scanned list
whose resolution bounds every element from below. -/
theorem foldl_worstStep_spec (first : MediaFileMetadata) (rest : List MediaFileMetadata) :
    (rest.foldl worstStep first = first ∨ rest.foldl worstStep first ∈ rest) ∧
    (rest.foldl worstStep first).resolution ≤ first.resolution ∧
    ∀ x ∈ rest, (rest.foldl worstStep first).resolution ≤ x.resolution := by
  induction rest generalizing first with
  | nil => simp
  | cons a l ih =>
    simp only [List.foldl_cons]
    rcases ih (worstStep first a) with ⟨hmem, hle, hall⟩
    have hstep : worstStep first a = a ∨ worstStep first a = first := by
      unfold worstStep; split <;> simp
    have hfb : (worstStep first a).resolution ≤ first.resolution := by
      unfold worstStep; split <;> omega
    have hab : (worstStep first a).resolution ≤ a.resolution := by
      unfold worstStep; split <;> omega
    refine ⟨?_, le_trans hle hfb, ?_⟩
    · rcases hmem with h | h
      · rcases hstep with h2 | h2
        · right; rw [h, h2]; exact List.mem_cons_self a l
        · left; rw [h, h2]
      · right; exact List.mem_cons_of_mem a h
    · intro x hx
      rcases List.mem_cons.mp hx with h | h
      · subst h; exact le_trans hle hab
      · exact hall x h

/-- C5: on an empty `downloads` list both accessors fail with
`ZeroMediaFileError`; on a nonempty list `best_media_file` returns a
download of maximal resolution and `worst_media_file` one of minimal
resolution; and `resolve(BEST)` / `resolve(WORST)` on the spec's
360/720/1080 bundle return the 1080 and 360 assets while on an empty
bundle both fail with `ZeroMediaFileError`. -/
theorem best_worst_media_file_spec (m : DownloadableFilesMetadata) :
    (m.downloads = [] →
      m.best_media_file = Except.error (MediaFileError.zeroMediaFileError
          "There are no downloadable  mediafiles for the targeted item") ∧
      m.worst_media_file = Except.error (MediaFileError.zeroMediaFileError
          "There are no downloadable  mediafiles for the targeted item")) ∧
    (m.downloads ≠ [] →
      ∃ b, m.best_media_file = Except.ok b ∧ b ∈ m.downloads ∧
        ∀ x ∈ m.downloads, x.resolution ≤ b.resolution) ∧
    (m.downloads ≠ [] →
      ∃ w, m.worst_media_file = Except.ok w ∧ w ∈ m.downloads ∧
        ∀ x ∈ m.downloads, w.resolution ≤ x.resolution) ∧
    resolve_media_file_to_be_downloaded "BEST"
        { downloads := [⟨"a360", "https://host/a.mp4?x=1", 360, 10⟩,
            ⟨"a720", "https://host/b.mp4?x=1", 720, 20⟩,
            ⟨"a1080", "https://host/c.mp4?x=1", 1080, 30⟩],
          captions := [], limited := false, limitedCode := "", hasResource := true } =
      Except.ok ⟨"a1080", "https://host/c.mp4?x=1", 1080, 30⟩ ∧
    resolve_media_file_to_be_downloaded "WORST"
        { downloads := [⟨"a360", "https://host/a.mp4?x=1", 360, 10⟩,
            ⟨"a720", "https://host/b.mp4?x=1", 720, 20⟩,
            ⟨"a1080", "https://host/c.mp4?x=1", 1080, 30⟩],
          captions := [], limited := false, limitedCode := "", hasResource := true } =
      Except.ok ⟨"a360", "https://host/a.mp4?x=1", 360, 10⟩ ∧
    resolve_media_file_to_be_downloaded "BEST"
        { downloads := [], captions := [], limited := false, limitedCode := "", hasResource := true } =
      Except.error (ResolveError.zeroMediaFileError
        "There are no downloadable  mediafiles for the targeted item") ∧
    resolve_media_file_to_be_downloaded "WORST"
        { downloads := [], captions := [], limited := false, limitedCode := "", hasResource := true } =
      Except.error (ResolveError.zeroMediaFileError
        "There are no downloadable  mediafiles for the targeted item") := by
  refine ⟨?_, ?_, ?_, rfl, rfl, rfl, rfl⟩
  · intro h
    constructor <;> simp [DownloadableFilesMetadata.best_media_file,
      DownloadableFilesMetadata.worst_media_file, h]
  · intro h
    rcases hd : m.downloads with _ | ⟨first, rest⟩
    · exact absurd hd h
    · rcases foldl_bestStep_spec first rest with ⟨hmem, hle, hall⟩
      refine ⟨rest.foldl bestStep first, ?_, ?_, ?_⟩
      · simp [DownloadableFilesMetadata.best_media_file, hd]
      · rcases hmem with h2 | h2
        · rw [h2]; exact List.mem_cons_self first rest
        · exact List.mem_cons_of_mem first h2
      · intro x hx
        rcases List.mem_cons.mp hx with h2 | h2
        · subst h2; exact hle
        · exact hall x h2
  · intro h
    rcases hd : m.downloads with _ | ⟨first, rest⟩
    · exact absurd hd h
    · rcases foldl_worstStep_spec first rest with ⟨hmem, hle, hall⟩
      refine ⟨rest.foldl worstStep first, ?_, ?_, ?_⟩
      · simp [DownloadableFilesMetadata.worst_media_file, hd]
      · rcases hmem with h2 | h2
        · rw [h2]; exact List.mem_cons_self first rest
        · exact List.mem_cons_of_mem first h2
      · intro x hx
        rcases List.mem_cons.mp hx with h2 | h2
        · subst h2; exact hle
        · exact hall x h2

/-- Witness for C5: on a concrete nonempty bundle the hypotheses hold and
the maximal download exists. -/
theorem best_worst_media_file_spec_witness :
    ([⟨"a360", "https://host/a.mp4?x=1", 360, 10⟩,
        (⟨"a720", "https://host/b.mp4?x=1", 720, 20⟩ : MediaFileMetadata)] ≠
      ([] : List MediaFileMetadata)) ∧
    (∃ b, DownloadableFilesMetadata.best_media_file
        { downloads := [⟨"a360", "https://host/a.mp4?x=1", 360, 10⟩,
            ⟨"a720", "https://host/b.mp4?x=1", 720, 20⟩],
          captions := [], limited := false, limitedCode := "", hasResource := true } =
        Except.ok b ∧
      b ∈ [⟨"a360", "https://host/a.mp4?x=1", 360, 10⟩,
        (⟨"a720", "https://host/b.mp4?x=1", 720, 20⟩ : MediaFileMetadata)] ∧
      ∀ x ∈ [⟨"a360", "https://host/a.mp4?x=1", 360, 10⟩,
        (⟨"a720", "https://host/b.mp4?x=1", 720, 20⟩ : MediaFileMetadata)],
        x.resolution ≤ b.resolution) :=
  ⟨by decide,
    (best_worst_media_file_spec
      { downloads := [⟨"a360", "https://host/a.mp4?x=1", 360, 10⟩,
          ⟨"a720", "https://host/b.mp4?x=1", 720, 20⟩],
        captions := [], limited := false, limitedCode := "", hasResource := true }).2.1
      (by decide)⟩

/-! ### C10: the derived `ext` needs a query string -/

/-- A `?` followed by at least one character occurs somewhere in the
list (the claim's notion of "contains a query string"). -/
def hasQueryMark : List Char → Bool
  | [] => false
  | c :: rest => (c == '?' && !rest.isEmpty) || hasQueryMark rest

/-- Any list containing an embedded `? + one character` satisfies
`hasQueryMark`. -/
theorem hasQueryMark_append (xs : List Char) (c : Char) (t : List Char) :
    hasQueryMark (xs ++ '?' :: c :: t) = true := by
  induction xs with
  | nil => simp [hasQueryMark]
  | cons a l ih => simp [hasQueryMark, ih]

/-- A successful `extAfterDot` pinpoints a `?` followed by a character. -/
theorem extAfterDot_query (rest : List Char) (w : List Char) (h : extAfterDot rest = some w) :
    hasQueryMark rest = true := by
  unfold extAfterDot at h
  split at h
  · rename_i c tl heq
    have hsplit := List.takeWhile_append_dropWhile (p := isWordCharAscii) (l := rest)
    rw [heq] at hsplit
    rw [← hsplit]
    exact hasQueryMark_append _ _ _
  · exact absurd h (by simp)

/-- A successful `fileExtGo` scan pinpoints a `?` followed by a character. -/
theorem fileExtGo_query (cs : List Char) :
    ∀ w, fileExtGo cs = some w → hasQueryMark cs = true := by
  induction cs with
  | nil => intro w h; simp [fileExtGo] at h
  | cons c rest ih =>
    intro w h
    unfold fileExtGo at h
    by_cases hnl : c == '\n'
    · rw [if_pos hnl] at h; exact absurd h (by simp)
    · rw [if_neg hnl] at h
      cases hrec : fileExtGo rest with
      | some w2 =>
        have := ih w2 hrec
        simp [hasQueryMark, this]
      | none =>
        rw [hrec] at h
        by_cases hdot : c == '.'
        · rw [if_pos hdot] at h
          have := extAfterDot_query rest w h
          simp [hasQueryMark, this]
        · rw [if_neg hdot] at h
          exact absurd h (by simp)

/-- A successful extension extraction implies the url has a query mark. -/
theorem get_file_extension_query (url : String) (e : String)
    (h : get_file_extension url = some e) : hasQueryMark url.data = true := by
  cases hd : url.data with
  | nil => simp only [get_file_extension, hd] at h; exact absurd h (by simp)
  | cons c0 rest =>
    simp only [get_file_extension, hd] at h
    by_cases hnl : c0 == '\n'
    · rw [if_pos hnl] at h; exact absurd h (by simp)
    · rw [if_neg hnl] at h
      cases hrec : fileExtGo rest with
      | some w =>
        have := fileExtGo_query rest w hrec
        simp [hasQueryMark, this]
      | none => rw [hrec] at h; exact absurd h (by simp)

/-- C10: the derived `ext` of a media or caption asset is `None` whenever
the URL has no `?` followed by at least one character — even when the
path ends in a well-formed extension like `.mp4` — and `ext` can only be
`some` extension when such a query string is present. -/
theorem ext_requires_query (m : MediaFileMetadata) (c : CaptionFileMetadata)
    (url : String) (e : String) :
    (hasQueryMark m.url.data = false → m.ext = none) ∧
    (hasQueryMark c.url.data = false → c.ext = none) ∧
    (get_file_extension url = some e → hasQueryMark url.data = true) ∧
    get_file_extension "https://host/video.mp4" = none ∧
    get_file_extension "https://host/video.mp4?auth=1" = some "mp4" := by
  refine ⟨?_, ?_, fun h => get_file_extension_query url e h, rfl, rfl⟩
  · intro h
    cases hext : m.ext with
    | none => rfl
    | some e2 =>
      have := get_file_extension_query m.url e2 hext
      rw [this] at h
      exact absurd h (by simp)
  · intro h
    cases hext : c.ext with
    | none => rfl
    | some e2 =>
      have := get_file_extension_query c.url e2 hext
      rw [this] at h
      exact absurd h (by simp)

/-- Witness for C10: a media asset whose URL path ends in `.mp4` but has
no query string derives `ext = none`, and a URL with a query string
derives `some "mp4"`. -/
theorem ext_requires_query_witness :
    hasQueryMark ("https://host/video.mp4" : String).data = false ∧
    MediaFileMetadata.ext ⟨"m1", "https://host/video.mp4", 720, 10⟩ = none ∧
    get_file_extension "x.mp4?y" = some "mp4" ∧
    hasQueryMark ("x.mp4?y" : String).data = true :=
  ⟨by decide,
    (ext_requires_query ⟨"m1", "https://host/video.mp4", 720, 10⟩
      ⟨"c1", "en", "English", "u", 1, 0⟩ "x.mp4?y" "mp4").1 (by decide),
    rfl,
    (ext_requires_query ⟨"m1", "https://host/video.mp4", 720, 10⟩
      ⟨"c1", "en", "English", "u", 1, 0⟩ "x.mp4?y" "mp4").2.2.1 rfl⟩

/-! ### C7: media filenames reach the runner unsanitized -/

/-- C7 (code bug): `MediaFileDownloader.generate_filename` hands the raw
template instantiation to the download runner — for a movie item titled
`"Ti/tanic"` the generated filename still contains the filesystem-illegal
`/`, and differs from its sanitized form; only
`CaptionFileDownloader.generate_filename` applies `sanitize_filename`. -/
theorem media_generate_filename_not_sanitized :
    (MediaFileDownloader.generate_filename [] false ⟨SubjectTypeMOVIES, "Ti/tanic", 1997⟩
        ⟨"m1", "https://host/v.mp4?auth=1", 1080, 5000⟩ 0 0).1 = "Ti/tanic (1997).mp4" ∧
    sanitize_filename "Ti/tanic (1997).mp4" = "Titanic (1997).mp4" ∧
    is_legal_filename_char '/' = false ∧
    ("Ti/tanic (1997).mp4" : String) ≠ "Titanic (1997).mp4" ∧
    (CaptionFileDownloader.generate_filename [] false ⟨SubjectTypeMOVIES, "Ti/tanic", 1997⟩
        ⟨"c1", "en", "English", "https://host/v.srt?auth=1", 100, 0⟩ 0 0).1 =
      "Titanic (1997).en.srt" := by
  refine ⟨rfl, rfl, rfl, by decide, rfl⟩

/-! ### C8: filename templates -/

/-- C8: generated filenames instantiate the shape-dependent template —
`"{title} ({release_year}).{ext}"` for non-TV-series items,
`"{title} S{season}E{episode}.{ext}"` for TV series, with caption files
inserting `.{lan}` before the extension — including the spec's concrete
Titanic and Show examples. -/
theorem generate_filename_templates (wd : List String) (g : Bool)
    (item : SearchResultsItemModel) (mf : MediaFileMetadata) (cf : CaptionFileMetadata)
    (season episode : Int) :
    (item.subjectType ≠ SubjectTypeTVSERIES →
      (MediaFileDownloader.generate_filename wd g item mf season episode).1 =
        item.title ++ " (" ++ toString item.releaseYear ++ ")." ++ formatExt mf.ext) ∧
    (item.subjectType = SubjectTypeTVSERIES →
      (MediaFileDownloader.generate_filename wd g item mf season episode).1 =
        item.title ++ " S" ++ toString season ++ "E" ++ toString episode ++ "." ++
          formatExt mf.ext) ∧
    (item.subjectType ≠ SubjectTypeTVSERIES →
      (CaptionFileDownloader.generate_filename wd g item cf season episode).1 =
        sanitize_filename (item.title ++ " (" ++ toString item.releaseYear ++ ")." ++
          cf.lan ++ "." ++ formatExt cf.ext)) ∧
    (item.subjectType = SubjectTypeTVSERIES →
      (CaptionFileDownloader.generate_filename wd g item cf season episode).1 =
        sanitize_filename (item.title ++ " S" ++ toString season ++ "E" ++ toString episode ++
          "." ++ cf.lan ++ "." ++ formatExt cf.ext)) ∧
    (MediaFileDownloader.generate_filename [] false ⟨SubjectTypeMOVIES, "Titanic", 1997⟩
        ⟨"m1", "https://host/resource/abc.mp4?auth=1", 1080, 5000⟩ 0 0).1 =
      "Titanic (1997).mp4" ∧
    (MediaFileDownloader.generate_filename [] false ⟨SubjectTypeTVSERIES, "Show", 2020⟩
        ⟨"m2", "https://host/resource/abc.mp4?auth=1", 720, 5000⟩ 1 2).1 = "Show S1E2.mp4" ∧
    (CaptionFileDownloader.generate_filename [] false ⟨SubjectTypeTVSERIES, "Show", 2020⟩
        ⟨"c1", "en", "English", "https://host/resource/abc.srt?auth=1", 100, 0⟩ 1 2).1 =
      "Show S1E2.en.srt" := by
  refine ⟨?_, ?_, ?_, ?_, rfl, rfl, rfl⟩ <;> intro h <;>
    simp [MediaFileDownloader.generate_filename, CaptionFileDownloader.generate_filename, h]

/-- Witness for C8: a movie item and a series item instantiate their
respective templates. -/
theorem generate_filename_templates_witness :
    ((⟨SubjectTypeMOVIES, "Titanic", 1997⟩ : SearchResultsItemModel).subjectType ≠
      SubjectTypeTVSERIES) ∧
    (MediaFileDownloader.generate_filename [] false ⟨SubjectTypeMOVIES, "Titanic", 1997⟩
        ⟨"m1", "https://host/resource/abc.mp4?auth=1", 1080, 5000⟩ 0 0).1 =
      "Titanic" ++ " (" ++ toString (1997 : Int) ++ ")." ++
        formatExt (MediaFileMetadata.ext ⟨"m1", "https://host/resource/abc.mp4?auth=1", 1080, 5000⟩) ∧
    (MediaFileDownloader.generate_filename [] false ⟨SubjectTypeTVSERIES, "Show", 2020⟩
        ⟨"m2", "https://host/resource/abc.mp4?auth=1", 720, 5000⟩ 1 2).1 =
      "Show" ++ " S" ++ toString (1 : Int) ++ "E" ++ toString (2 : Int) ++ "." ++
        formatExt (MediaFileMetadata.ext ⟨"m2", "https://host/resource/abc.mp4?auth=1", 720, 5000⟩) :=
  ⟨by decide,
    (generate_filename_templates [] false ⟨SubjectTypeMOVIES, "Titanic", 1997⟩
      ⟨"m1", "https://host/resource/abc.mp4?auth=1", 1080, 5000⟩
      ⟨"c1", "en", "English", "u?x", 100, 0⟩ 0 0).1 (by decide),
    (generate_filename_templates [] false ⟨SubjectTypeTVSERIES, "Show", 2020⟩
      ⟨"m2", "https://host/resource/abc.mp4?auth=1", 720, 5000⟩
      ⟨"c1", "en", "English", "u?x", 100, 0⟩ 1 2).2.1 rfl⟩

/-! ### C9: subtitle lookup -/

/-- `dictGet` over a keyed map misses when no element carries the key. -/
theorem dictGet_map_eq_none {β : Type} (key : β → String) (l : List β) (k : String)
    (h : ∀ x ∈ l, key x ≠ k) :
    dictGet (l.map (fun x => (key x, x))) k = none := by
  induction l with
  | nil => rfl
  | cons a t ih =>
    simp only [List.map_cons, dictGet]
    rw [ih (fun x hx => h x (List.mem_cons_of_mem a hx))]
    simp [h a (List.mem_cons_self a t)]

/-- `dictGet` over a keyed map returns the unique element carrying the
key. -/
theorem dictGet_map_eq_some {β : Type} (key : β → String) (l : List β) (k : String) (v : β)
    (hv : v ∈ l) (hk : key v = k) (huniq : ∀ x ∈ l, key x = k → x = v) :
    dictGet (l.map (fun x => (key x, x))) k = some v := by
  induction l with
  | nil => cases hv
  | cons a t ih =>
    simp only [List.map_cons, dictGet]
    by_cases hvt : v ∈ t
    · rw [ih hvt (fun x hx h2 => huniq x (List.mem_cons_of_mem a hx) h2)]
    · have hav : a = v := by
        rcases List.mem_cons.mp hv with h2 | h2
        · exact h2.symm
        · exact absurd h2 hvt
      have hnone : dictGet (t.map (fun x => (key x, x))) k = none := by
        apply dictGet_map_eq_none
        intro x hx hkx
        have hxv := huniq x (List.mem_cons_of_mem a hx) hkx
        exact hvt (hxv ▸ hx)
      rw [hnone]
      rw [hav]
      simp [hk]

/-- C9: a 2-letter language input is matched case-insensitively (only
the input's case matters) against short codes; when exactly one English
caption exists, `"en"` and `"English"` return that same asset; and a
language with no matching caption yields `none` rather than an error. -/
theorem get_subtitle_by_language_spec (m : DownloadableFilesMetadata)
    (l₁ l₂ lang : String) (cap : CaptionFileMetadata) :
    (l₁.length = 2 → l₂.length = 2 → pyLower l₁ = pyLower l₂ →
      m.get_subtitle_by_language l₁ = m.get_subtitle_by_language l₂) ∧
    (cap ∈ m.captions → cap.lan = "en" → cap.lanName = "English" →
      (∀ c ∈ m.captions, c.lan = "en" → c = cap) →
      (∀ c ∈ m.captions, c.lanName = "English" → c = cap) →
      m.get_subtitle_by_language "en" = some cap ∧
        m.get_subtitle_by_language "English" = some cap) ∧
    ((∀ c ∈ m.captions, c.lan ≠ pyLower lang ∧ c.lanName ≠ pyCapitalize lang) →
      m.get_subtitle_by_language lang = none) := by
  refine ⟨?_, ?_, ?_⟩
  · intro h1 h2 hlow
    unfold DownloadableFilesMetadata.get_subtitle_by_language
    rw [if_pos h1, if_pos h2, hlow]
  · intro hmem hlan hname huniqs huniqf
    constructor
    · unfold DownloadableFilesMetadata.get_subtitle_by_language
        DownloadableFilesMetadata.get_language_short_subtitle_map
      rw [if_pos (by decide : ("en" : String).length = 2)]
      have hlow : pyLower "en" = "en" := rfl
      rw [hlow]
      exact dictGet_map_eq_some (fun c => c.lan) m.captions "en" cap hmem hlan huniqs
    · unfold DownloadableFilesMetadata.get_subtitle_by_language
        DownloadableFilesMetadata.get_language_subtitle_map
      rw [if_neg (by decide : ¬ ("English" : String).length = 2)]
      have hcapz : pyCapitalize "English" = "English" := rfl
      rw [hcapz]
      exact dictGet_map_eq_some (fun c => c.lanName) m.captions "English" cap hmem hname huniqf
  · intro h
    unfold DownloadableFilesMetadata.get_subtitle_by_language
      DownloadableFilesMetadata.get_language_short_subtitle_map
      DownloadableFilesMetadata.get_language_subtitle_map
    by_cases hl : lang.length = 2
    · rw [if_pos hl]
      exact dictGet_map_eq_none (fun c => c.lan) m.captions _ (fun c hc => (h c hc).1)
    · rw [if_neg hl]
      exact dictGet_map_eq_none (fun c => c.lanName) m.captions _ (fun c hc => (h c hc).2)

/-- Witness for C9 on a bundle with exactly one English caption: both
spellings return it, and a French lookup returns `none`. -/
theorem get_subtitle_by_language_spec_witness :
    ((⟨"c1", "en", "English", "https://host/s.srt?x=1", 100, 0⟩ : CaptionFileMetadata) ∈
      [(⟨"c1", "en", "English", "https://host/s.srt?x=1", 100, 0⟩ : CaptionFileMetadata)]) ∧
    (DownloadableFilesMetadata.get_subtitle_by_language
        { downloads := [], captions := [⟨"c1", "en", "English", "https://host/s.srt?x=1", 100, 0⟩],
          limited := false, limitedCode := "", hasResource := true } "en" =
      some ⟨"c1", "en", "English", "https://host/s.srt?x=1", 100, 0⟩ ∧
    DownloadableFilesMetadata.get_subtitle_by_language
        { downloads := [], captions := [⟨"c1", "en", "English", "https://host/s.srt?x=1", 100, 0⟩],
          limited := false, limitedCode := "", hasResource := true } "English" =
      some ⟨"c1", "en", "English", "https://host/s.srt?x=1", 100, 0⟩) ∧
    DownloadableFilesMetadata.get_subtitle_by_language
        { downloads := [], captions := [⟨"c1", "en", "English", "https://host/s.srt?x=1", 100, 0⟩],
          limited := false, limitedCode := "", hasResource := true } "French" = none :=
  ⟨by decide,
    (get_subtitle_by_language_spec
      { downloads := [], captions := [⟨"c1", "en", "English", "https://host/s.srt?x=1", 100, 0⟩],
        limited := false, limitedCode := "", hasResource := true } "en" "EN" "French"
      ⟨"c1", "en", "English", "https://host/s.srt?x=1", 100, 0⟩).2.1
      (by decide) rfl rfl (by decide) (by decide),
    (get_subtitle_by_language_spec
      { downloads := [], captions := [⟨"c1", "en", "English", "https://host/s.srt?x=1", 100, 0⟩],
        limited := false, limitedCode := "", hasResource := true } "en" "EN" "French"
      ⟨"c1", "en", "English", "https://host/s.srt?x=1", 100, 0⟩).2.2
      (by decide)⟩

/-! ### C3: search-result filtering -/

/-- `takeWhile` stops exactly at the first failing element of an
append. -/
theorem takeWhile_append_not {α : Type} (p : α → Bool) (xs : List α) (y : α) (zs : List α)
    (hxs : ∀ x ∈ xs, p x = true) (hy : p y = false) :
    (xs ++ y :: zs).takeWhile p = xs := by
  induction xs with
  | nil => simp [List.takeWhile_cons, hy]
  | cons a l ih =>
    have ha := hxs a (List.mem_cons_self a l)
    simp [List.takeWhile_cons, ha, ih (fun x hx => hxs x (List.mem_cons_of_mem a hx))]

/-- `dropWhile` resumes exactly at the first failing element of an
append. -/
theorem dropWhile_append_not {α : Type} (p : α → Bool) (xs : List α) (y : α) (zs : List α)
    (hxs : ∀ x ∈ xs, p x = true) (hy : p y = false) :
    (xs ++ y :: zs).dropWhile p = y :: zs := by
  induction xs with
  | nil => simp [List.dropWhile_cons, hy]
  | cons a l ih =>
    have ha := hxs a (List.mem_cons_self a l)
    simp [List.dropWhile_cons, ha, ih (fun x hx => hxs x (List.mem_cons_of_mem a hx))]

/-- On newline-free strings, the `$`-before-final-newline position does
not exist, so a dollar match is a match at the true end. -/
theorem pyDollarMatch_eq_of_noNewline (f : List Char → Bool) (s : String)
    (h : noNewline s.data = true) : pyDollarMatch f s = f s.data.reverse := by
  unfold pyDollarMatch
  split
  · rename_i r heq
    exfalso
    have hmem : '\n' ∈ s.data.reverse := by rw [heq]; exact List.mem_cons_self _ _
    have h2 : '\n' ∈ s.data := List.mem_reverse.mp hmem
    have h3 := List.all_eq_true.mp h _ h2
    simp at h3
  · rfl

/-- The claim's reading of "the title carries a trailing season suffix":
it ends in one whitespace character, `S`, and at least one digit. -/
def endsInSeasonSuffix (t : String) : Prop :=
  ∃ b w ds, t.data = b ++ w :: 'S' :: ds ∧ pyIsSpace w = true ∧ ds ≠ [] ∧
    ∀ c ∈ ds, c.isDigit = true

/-- The claim's reading of "the title ends in ` S1`": one whitespace
character, `S`, `1` at the very end. -/
def endsInSeasonOne (t : String) : Prop :=
  ∃ b w, t.data = b ++ [w, 'S', '1'] ∧ pyIsSpace w = true

/-- The reversed-end matcher for `^.*\sS\d{1,}$` recognises exactly the
titles with a trailing season suffix (stated for newline-free titles). -/
theorem seasonSuffixRev_iff (t : List Char) (h : noNewline t = true) :
    seasonSuffixRev t.reverse = true ↔
      ∃ b w ds, t = b ++ w :: 'S' :: ds ∧ pyIsSpace w = true ∧ ds ≠ [] ∧
        ∀ c ∈ ds, c.isDigit = true := by
  constructor
  · intro hm
    unfold seasonSuffixRev at hm
    split at hm
    · rename_i w a heq
      rw [Bool.and_eq_true, Bool.and_eq_true] at hm
      obtain ⟨⟨hne, hsp⟩, hnn⟩ := hm
      have hsplit := List.takeWhile_append_dropWhile (p := Char.isDigit) (l := t.reverse)
      rw [heq] at hsplit
      have ht2 := congrArg List.reverse hsplit
      rw [List.reverse_reverse] at ht2
      set X := t.reverse.takeWhile Char.isDigit with hX
      refine ⟨a.reverse, w, X.reverse, ?_, hsp, ?_, ?_⟩
      · rw [← ht2, List.reverse_append]
        simp [List.append_assoc]
      · simp only [ne_eq, List.reverse_eq_nil_iff]
        intro hnil
        rw [hnil] at hne; simp at hne
      · intro c hc
        exact List.mem_takeWhile_imp (List.mem_reverse.mp hc)
    · exact absurd hm (by simp)
  · rintro ⟨b, w, ds, hshape, hsp, hne, hdig⟩
    have hrev : t.reverse = ds.reverse ++ 'S' :: w :: b.reverse := by
      rw [hshape, List.reverse_append]
      simp [List.append_assoc]
    have hb : noNewline b.reverse = true := by
      apply List.all_eq_true.mpr
      intro c hc
      apply List.all_eq_true.mp h
      rw [hshape]
      exact List.mem_append.mpr (Or.inl (List.mem_reverse.mp hc))
    have hdig2 : ∀ x ∈ ds.reverse, Char.isDigit x = true :=
      fun x hx => hdig x (List.mem_reverse.mp hx)
    have hSd : Char.isDigit 'S' = false := by decide
    unfold seasonSuffixRev
    rw [hrev, dropWhile_append_not _ _ _ _ hdig2 hSd, takeWhile_append_not _ _ _ _ hdig2 hSd]
    simp [hsp, hb, hne]

/-- The reversed-end matcher for `^.*\sS1$` recognises exactly the
titles ending in whitespace-`S1` (stated for newline-free titles). -/
theorem seasonOneRev_iff (t : List Char) (h : noNewline t = true) :
    seasonOneRev t.reverse = true ↔
      ∃ b w, t = b ++ [w, 'S', '1'] ∧ pyIsSpace w = true := by
  constructor
  · intro hm
    unfold seasonOneRev at hm
    split at hm
    · rename_i w a heq
      rw [Bool.and_eq_true] at hm
      refine ⟨a.reverse, w, ?_, hm.1⟩
      have ht : t = (t.reverse).reverse := (List.reverse_reverse t).symm
      rw [ht, heq]
      simp
    · exact absurd hm (by simp)
  · rintro ⟨b, w, hshape, hsp⟩
    have hrev : t.reverse = '1' :: 'S' :: w :: b.reverse := by
      rw [hshape, List.reverse_append]
      simp
    have hb : noNewline b.reverse = true := by
      apply List.all_eq_true.mpr
      intro c hc
      apply List.all_eq_true.mp h
      rw [hshape]
      exact List.mem_append.mpr (Or.inl (List.mem_reverse.mp hc))
    unfold seasonOneRev
    rw [hrev]
    simp [hsp, hb]

/-- `SERIES_NAME_WITH_SEASON_NUMBER_PATTERN` on a newline-free title
matches exactly the trailing-season-suffix titles. -/
theorem matchesSeasonNumber_iff (t : String) (h : noNewline t.data = true) :
    matchesSeasonNumber t = true ↔ endsInSeasonSuffix t := by
  unfold matchesSeasonNumber
  rw [pyDollarMatch_eq_of_noNewline _ _ h]
  exact seasonSuffixRev_iff t.data h

/-- `SERIES_NAME_WITH_SEASON_NUMBER_ONE_PATTERN` on a newline-free title
matches exactly the titles ending in whitespace-`S1`. -/
theorem matchesSeasonNumberOne_iff (t : String) (h : noNewline t.data = true) :
    matchesSeasonNumberOne t = true ↔ endsInSeasonOne t := by
  unfold matchesSeasonNumberOne
  rw [pyDollarMatch_eq_of_noNewline _ _ h]
  exact seasonOneRev_iff t.data h

/-- `is_valid_search_item` on a newline-free title keeps exactly the
titles with no trailing season suffix or with the ` S1` suffix. -/
theorem is_valid_search_item_iff (t : String) (h : noNewline t.data = true) :
    is_valid_search_item t = true ↔ (¬ endsInSeasonSuffix t ∨ endsInSeasonOne t) := by
  unfold is_valid_search_item
  by_cases h1 : matchesSeasonNumber t <;> by_cases h2 : matchesSeasonNumberOne t <;>
    rw [← matchesSeasonNumber_iff t h, ← matchesSeasonNumberOne_iff t h] <;>
    simp [h1, h2]

/-- The sanitizer never lengthens its input. -/
theorem sanitize_go_length_le (cs : List Char) : (sanitize_go cs).length ≤ cs.length := by
  induction cs using sanitize_go.induct with
  | case1 => simp [sanitize_go]
  | case2 c d r3 hcond ih =>
    rw [sanitize_go]
    simp only [if_pos hcond]
    have h2 := (List.dropWhile_sublist (p := Char.isDigit) (l := r3)).length_le
    simp only [List.length_cons] at ih ⊢
    omega
  | case3 c d r3 hcond ih =>
    rw [sanitize_go]
    simp only [if_neg hcond]
    simp only [List.length_cons] at ih ⊢
    omega
  | case4 c rest hshape ih =>
    rw [sanitize_go]
    · simp only [List.length_cons] at ih ⊢
      omega
    · exact hshape

/-- Appending ` S1` to a title the sanitizer leaves untouched yields a
title the sanitizer strips back to the original. -/
theorem sanitize_go_append_S1 (cs : List Char) (hid : sanitize_go cs = cs) :
    sanitize_go (cs ++ [' ', 'S', '1']) = cs := by
  induction cs using sanitize_go.induct with
  | case1 =>
    simp [sanitize_go, pyIsSpace, List.dropWhile]
  | case2 c d r3 hcond ih =>
    -- the identity hypothesis is impossible here: this arm strictly shrinks
    exfalso
    have hlen := sanitize_go_length_le (List.dropWhile Char.isDigit r3)
    have h2 := (List.dropWhile_sublist (p := Char.isDigit) (l := r3)).length_le
    have heq : sanitize_go (c :: 'S' :: d :: r3) = sanitize_go (List.dropWhile Char.isDigit r3) := by
      rw [sanitize_go]; simp only [if_pos hcond]
    rw [hid] at heq
    have hL : (c :: 'S' :: d :: r3).length = (sanitize_go (List.dropWhile Char.isDigit r3)).length := by
      rw [heq]
    simp only [List.length_cons] at hL
    omega
  | case3 c d r3 hcond ih =>
    have hid2 : sanitize_go ('S' :: d :: r3) = 'S' :: d :: r3 := by
      have heq : sanitize_go (c :: 'S' :: d :: r3) = c :: sanitize_go ('S' :: d :: r3) := by
        rw [sanitize_go]; simp only [if_neg hcond]
      rw [heq] at hid
      exact (List.cons.injEq _ _ _ _).mp hid |>.2
    have goal1 : sanitize_go ((c :: 'S' :: d :: r3) ++ [' ', 'S', '1']) =
        c :: sanitize_go (('S' :: d :: r3) ++ [' ', 'S', '1']) := by
      show sanitize_go (c :: 'S' :: d :: (r3 ++ [' ', 'S', '1'])) = _
      rw [sanitize_go]
      simp only [if_neg hcond]
      rfl
    rw [goal1, ih hid2]
  | case4 c rest hshape ih =>
    have hid2 : sanitize_go rest = rest := by
      have heq : sanitize_go (c :: rest) = c :: sanitize_go rest := by
        rw [sanitize_go]
        · exact hshape
      rw [heq] at hid
      exact (List.cons.injEq _ _ _ _).mp hid |>.2
    have key : sanitize_go ((c :: rest) ++ [' ', 'S', '1']) =
        c :: sanitize_go (rest ++ [' ', 'S', '1']) := by
      cases rest with
      | nil =>
        show sanitize_go (c :: ' ' :: 'S' :: '1' :: []) = _
        rw [sanitize_go]
        · rfl
        · intro d r3 hcontra
          cases hcontra
      | cons c2 rest2 =>
        by_cases hS : c2 = 'S'
        · subst hS
          cases rest2 with
          | nil =>
            show sanitize_go (c :: 'S' :: ' ' :: ['S', '1']) = _
            rw [sanitize_go]
            have hc2 : ((pyIsSpace c || c == '-') && Char.isDigit ' ') = false := by
              simp [Char.isDigit]
            simp only [hc2, Bool.false_eq_true, if_false]
            rfl
          | cons d r3 =>
            exact absurd rfl (fun h2 => hshape d r3 h2)
        · show sanitize_go (c :: c2 :: (rest2 ++ [' ', 'S', '1'])) = _
          cases rest2 with
          | nil =>
            rw [sanitize_go]
            · rfl
            · intro d r3 hcontra
              have h2 := (List.cons.injEq _ _ _ _).mp hcontra
              exact hS h2.1
          | cons c3 rest3 =>
            rw [sanitize_go]
            · rfl
            · intro d r3 hcontra
              have h2 := (List.cons.injEq _ _ _ _).mp hcontra
              exact hS h2.1
    rw [key, ih hid2]

/-- String-level version of the ` S1` stripping property. -/
theorem sanitize_item_name_append_S1 (base : String) (hid : sanitize_item_name base = base) :
    sanitize_item_name (base ++ " S1") = base := by
  unfold sanitize_item_name at hid ⊢
  have hid2 : sanitize_go base.data = base.data := congrArg String.data hid
  have hdata : (base ++ " S1").data = base.data ++ [' ', 'S', '1'] := by
    rw [String.data_append]
  rw [hdata, sanitize_go_append_S1 base.data hid2]

/-- C3 (counterexample): with a TV-series filter and a nonempty raw list
whose only item is a movie, the filtered set is empty, yet
`Search.get_content` returns it without raising `ZeroSearchResultsError` —
the emptiness check runs on the raw list before filtering, not after. -/
theorem search_filtered_empty_no_error :
    Search.get_content_items (σ := Unit)
        { session := (), query := "x", subject_type := SubjectTypeTVSERIES, page := 1, per_page := 24 }
        [⟨SubjectTypeMOVIES, "Movie X"⟩] = Except.ok [] ∧
    ∀ e, Search.get_content_items (σ := Unit)
        { session := (), query := "x", subject_type := SubjectTypeTVSERIES, page := 1, per_page := 24 }
        [⟨SubjectTypeMOVIES, "Movie X"⟩] ≠ Except.error e := by
  have h0 : Search.get_content_items (σ := Unit)
      { session := (), query := "x", subject_type := SubjectTypeTVSERIES, page := 1, per_page := 24 }
      [⟨SubjectTypeMOVIES, "Movie X"⟩] = Except.ok [] := rfl
  exact ⟨h0, fun e h => by rw [h0] at h; exact Except.noConfusion h⟩

/-- C3 (amended): with a non-`ALL` filter, `ZeroSearchResultsError` is
raised exactly when the *raw* item list is empty (a nonempty raw list
whose filtered set is empty returns the empty list without error); a raw
item is kept iff its `subjectType` matches the filter and its title
either carries no trailing season suffix or ends in whitespace-`S1`; a
kept title consisting of a sanitizer-invariant base plus the ` S1`
suffix has that suffix stripped; and on the spec's example list the
TV-series filter keeps exactly `"Show"` (from `"Show S1"`). -/
theorem search_get_content_amended {σ : Type} (self : Search σ) (items : List RawSearchItem)
    (it : RawSearchItem) (base : String) :
    (self.subject_type ≠ SubjectTypeALL →
      ((∃ msg, self.get_content_items items =
          Except.error (SearchContentError.zeroSearchResultsError msg)) ↔ items = [])) ∧
    (self.subject_type ≠ SubjectTypeALL → items ≠ [] →
      self.get_content_items items =
        Except.ok (items.filterMap (searchKeepItem self.subject_type))) ∧
    (noNewline it.title.data = true →
      ((searchKeepItem self.subject_type it).isSome = true ↔
        (it.subjectType = self.subject_type ∧
          (¬ endsInSeasonSuffix it.title ∨ endsInSeasonOne it.title)))) ∧
    (it.subjectType = self.subject_type → it.title = base ++ " S1" →
      sanitize_item_name base = base → noNewline base.data = true →
      searchKeepItem self.subject_type it = some ⟨it.subjectType, base⟩) ∧
    (Search.get_content_items (σ := Unit)
        { session := (), query := "show", subject_type := SubjectTypeTVSERIES,
          page := 1, per_page := 24 }
        [⟨SubjectTypeTVSERIES, "Show S2"⟩, ⟨SubjectTypeTVSERIES, "Show S1"⟩,
          ⟨SubjectTypeMOVIES, "Movie X"⟩] =
      Except.ok [⟨SubjectTypeTVSERIES, "Show"⟩]) := by
  refine ⟨?_, ?_, ?_, ?_, ?_⟩
  · intro hst
    unfold Search.get_content_items
    rw [if_pos hst]
    cases items with
    | nil => simp
    | cons a l => simp
  · intro hst hne
    cases items with
    | nil => exact absurd rfl hne
    | cons a l =>
      unfold Search.get_content_items
      rw [if_pos hst]
      rfl
  · intro hnn
    unfold searchKeepItem
    by_cases hty : (it.subjectType == self.subject_type) = true
    · rw [if_pos hty]
      have htyeq : it.subjectType = self.subject_type := by
        rwa [beq_iff_eq] at hty
      by_cases hv : is_valid_search_item it.title = true
      · rw [if_pos hv]
        simp only [Option.isSome_some, true_iff]
        exact ⟨htyeq, (is_valid_search_item_iff it.title hnn).mp hv⟩
      · rw [if_neg hv]
        simp only [Option.isSome_none, Bool.false_eq_true, false_iff]
        intro hcontra
        exact hv ((is_valid_search_item_iff it.title hnn).mpr hcontra.2)
    · rw [if_neg hty]
      simp only [Option.isSome_none, Bool.false_eq_true, false_iff]
      intro hcontra
      exact hty (beq_iff_eq.mpr hcontra.1)
  · intro hty htitle hsan hnn
    have hdata : it.title.data = base.data ++ [' ', 'S', '1'] := by
      rw [htitle, String.data_append]
    have hnnt : noNewline it.title.data = true := by
      unfold noNewline at hnn ⊢
      rw [hdata, List.all_append, hnn]
      decide
    have hvalid : is_valid_search_item it.title = true := by
      apply (is_valid_search_item_iff it.title hnnt).mpr
      right
      exact ⟨base.data, ' ', hdata, rfl⟩
    have hstrip : sanitize_item_name it.title = base := by
      rw [htitle]
      exact sanitize_item_name_append_S1 base hsan
    unfold searchKeepItem
    rw [if_pos (beq_iff_eq.mpr hty), if_pos hvalid, hstrip]
  · have h1 : searchKeepItem SubjectTypeTVSERIES ⟨SubjectTypeTVSERIES, "Show S2"⟩ = none := by
      unfold searchKeepItem
      rw [if_pos (by decide), if_neg (by decide)]
    have h2 : searchKeepItem SubjectTypeTVSERIES ⟨SubjectTypeTVSERIES, "Show S1"⟩ =
        some ⟨SubjectTypeTVSERIES, "Show"⟩ := by
      unfold searchKeepItem
      rw [if_pos (by decide), if_pos (by decide)]
      have hstrip : sanitize_item_name "Show S1" = "Show" := by
        simp [sanitize_item_name, sanitize_go, pyIsSpace]
      rw [hstrip]
    have h3 : searchKeepItem SubjectTypeTVSERIES ⟨SubjectTypeMOVIES, "Movie X"⟩ = none := by
      unfold searchKeepItem
      rw [if_neg (by decide)]
    unfold Search.get_content_items
    rw [if_pos (by decide)]
    simp only [List.isEmpty_cons, Bool.false_eq_true, if_false]
    simp [List.filterMap_cons, h1, h2, h3]

/-- Witness for C3 (amended), instantiating the kept-and-stripped case:
`"Show S1"` under a TV-series filter is kept with title `"Show"`. -/
theorem search_get_content_amended_witness :
    sanitize_item_name "Show" = "Show" ∧
    noNewline ("Show" : String).data = true ∧
    searchKeepItem SubjectTypeTVSERIES ⟨SubjectTypeTVSERIES, "Show S1"⟩ =
      some ⟨SubjectTypeTVSERIES, "Show"⟩ :=
  ⟨by simp [sanitize_item_name, sanitize_go, pyIsSpace],
    by decide,
    (search_get_content_amended (σ := Unit)
        { session := (), query := "q", subject_type := SubjectTypeTVSERIES, page := 1, per_page := 24 }
        [] ⟨SubjectTypeTVSERIES, "Show S1"⟩ "Show").2.2.2.1 rfl rfl
      (by simp [sanitize_item_name, sanitize_go, pyIsSpace]) (by decide)⟩
